import Mathlib

/-!
Shallow embedding of the session-orchestration core of `copilot-bar`
(`src/main/desktop-window.ts`, embedded class `CopilotService`, together with
the module-level screenshot slot of `src/main/tools/helpers.ts`).

External collaborators (the Copilot SDK client, its sessions, `JSON.parse`
outcomes, the configuration store and the wall clock) are modelled as inputs:
each operation receives the configured model, the current time and the outcome
the backend would produce, and the orchestrator's own state transitions are
translated line by line from the TypeScript source.
-/

namespace CopilotBar

/-- Association-list lookup, mirroring `Map.get` on a map with unique keys. -/
def aGet {α β : Type} [DecidableEq α] : List (α × β) → α → Option β
  | [], _ => none
  | (k, v) :: rest, key => if k = key then some v else aGet rest key

/-- Association-list deletion, mirroring `Map.delete`. -/
def aDel {α β : Type} [DecidableEq α] : List (α × β) → α → List (α × β)
  | [], _ => []
  | (k, v) :: rest, key => if k = key then aDel rest key else (k, v) :: aDel rest key

/-- Association-list insertion/replacement, mirroring `Map.set`
(JS maps hold at most one entry per key). -/
def aSet {α β : Type} [DecidableEq α] (m : List (α × β)) (key : α) (v : β) : List (α × β) :=
  (key, v) :: aDel m key

/-- Number of entries stored under `key`. -/
def aCount {α β : Type} [DecidableEq α] : List (α × β) → α → Nat
  | [], _ => 0
  | (k, _) :: rest, key => (if k = key then 1 else 0) + aCount rest key

/-- An opaque backend session (`CopilotSession`).  `ref` identifies the
`createSession` call that built it (a ghost identity used to count creations
and destructions); `model` is the model id that creation call was given. -/
structure CSession where
  ref : Nat
  model : String
deriving DecidableEq, Repr

/-- JS truthiness of an optional string (`undefined`, `null` and `""` are
falsy, every other string truthy). -/
def truthyStr : Option String → Bool
  | some s => s ≠ ""
  | none => false

/-- The fields the event handler reads off a parsed tool-result object
(`result.widget`, `result.duration`, …).  An absent (`undefined`) field is
`none`; `currentNetwork` distinguishes JSON `null` (`some none`) from absence
(`none`) because the source applies `?? null` to it. -/
structure ResultObj where
  widget : Option String := none
  duration : Option Int := none
  label : Option String := none
  cities : Option (List (String × String)) := none
  category : Option String := none
  enabled : Option Bool := none
  connected : Option Bool := none
  currentNetwork : Option (Option String) := none
  savedNetworks : Option (List String) := none
  error : Option String := none
  success : Option Bool := none
  path : Option String := none
  url : Option String := none
deriving DecidableEq, Repr

/-- Outcome of `JSON.parse(event.data.result.content)`: either the parse
throws (plain text / malformed JSON) or it yields a value whose field
projections are those of `ResultObj` (projecting a missing field of any
successfully parsed value gives `undefined`, i.e. `none`). -/
inductive ParsedContent
  | malformed
  | obj (o : ResultObj)
deriving DecidableEq, Repr

/-- A raw event arriving on a session's stream (`session.on` callback input),
one constructor per event type the handler distinguishes; `other` covers every
unknown event kind.  For `toolComplete`, `result = none` models a missing
`result`/`content` field (or an empty content string, which is falsy). -/
inductive SEvent
  | sessionError
  | compactionStart
  | compactionComplete
  | messageDelta (messageId : String) (deltaContent : Option String)
      (parentToolCallId : Option String)
  | usage (model : Option String) (inputTokens outputTokens cost : Option Nat)
  | sessionStart (selectedModel : Option String)
  | toolStart (toolName : String) (toolCallId : String)
  | toolComplete (toolCallId : String) (result : Option ParsedContent)
  | other
deriving DecidableEq, Repr

/-- `ToolEvent` as republished to the UI. -/
structure ToolEvent where
  type : String
  toolName : String
  toolCallId : String
deriving DecidableEq, Repr

/-- `WidgetEvent` as republished to the UI.  A `none` field is one the emitted
object carries as `undefined` (effectively omitted); `currentNetwork` is
`Option (Option String)` so that `some none` is an explicit JSON `null`. -/
structure WidgetEvent where
  type : String
  duration : Option Int := none
  label : Option String := none
  cities : Option (List (String × String)) := none
  category : Option String := none
  enabled : Option Bool := none
  connected : Option Bool := none
  currentNetwork : Option (Option String) := none
  savedNetworks : Option (List String) := none
  error : Option String := none
deriving DecidableEq, Repr

/-- The typed events the orchestrator republishes to registered handlers. -/
inductive UIEvent
  | tool (e : ToolEvent)
  | widget (e : WidgetEvent)
  | stream (messageId : String) (content : String)
  | screenshot (path : Option String) (url : Option String)
  | modelUsage (model : String) (inputTokens outputTokens cost : Option Nat)
deriving DecidableEq, Repr

/-- The orchestrator's state: the fields of `CopilotService` (client presence,
session map, model watermark, shared active-tool table, the five registered
handler slots — modelled by their presence, since only presence gates
behaviour) plus the module-level screenshot slot of `helpers.ts`, plus ghost
logs `creations`/`destroys` recording each `createSession` call (ref and
model) and each `destroyAndDelete` attempt (ref). -/
structure OrchState where
  clientStarted : Bool := false
  sessions : List (Nat × CSession) := []
  currentModel : String := ""
  activeTools : List (String × String) := []
  hasToolHandler : Bool := false
  hasWidgetHandler : Bool := false
  hasStreamHandler : Bool := false
  hasScreenshotHandler : Bool := false
  hasModelUsageHandler : Bool := false
  nextRef : Nat := 0
  creations : List (Nat × String) := []
  destroys : List Nat := []
  lastScreenshotPath : Option String := none
  lastScreenshotTime : Nat := 0
deriving DecidableEq, Repr

/-- The freshly constructed service (all fields at their declared initial
values). -/
def initialState : OrchState := {}

/-- Outcome the backend produces for one `sendAndWait` call: a resolved
response whose `data.content` is `content` (`none` when the response carries
no content), or a rejection with message `msg`. -/
inductive SendOutcome
  | ok (content : Option String)
  | err (msg : String)
deriving DecidableEq, Repr

/-- What `chat` returns: the resolved text, or the re-thrown error. -/
inductive ChatOutcome
  | reply (text : String)
  | failed (msg : String)
deriving DecidableEq, Repr

/-- The structured result of `compactSession`. -/
structure CompactResult where
  success : Bool
  summary : Option String := none
  error : Option String := none
deriving DecidableEq, Repr

/-- `SCREENSHOT_EXPIRY_MS = 5 * 60 * 1000` from `helpers.ts`. -/
def SCREENSHOT_EXPIRY_MS : Nat := 5 * 60 * 1000

/-- `setLastScreenshot(path)` at wall-clock time `now`. -/
def setLastScreenshot (st : OrchState) (path : String) (now : Nat) : OrchState :=
  { st with lastScreenshotPath := some path, lastScreenshotTime := now }

/-- `getLastScreenshot()` at wall-clock time `now`: returns the stored path
only when it is truthy and recorded strictly less than the expiry ago. -/
def getLastScreenshot (st : OrchState) (now : Nat) : Option String :=
  match st.lastScreenshotPath with
  | some p =>
      if p ≠ "" ∧ now - st.lastScreenshotTime < SCREENSHOT_EXPIRY_MS then some p else none
  | none => none

/-- `clearLastScreenshot()`. -/
def clearLastScreenshot (st : OrchState) : OrchState :=
  { st with lastScreenshotPath := none, lastScreenshotTime := 0 }

/-- Lazy client start (`if (!this.client) await this.initialize()`); the
start itself is an external call assumed to succeed. -/
def ensureClient (st : OrchState) : OrchState :=
  { st with clientStarted := true }

/-- `destroyAndDelete(session)`: both the `session.destroy()` and the
`client.deleteSession` are external calls whose errors the source swallows
(`try {...} catch {}`), so the embedding just logs the attempt. -/
def destroyAndDelete (st : OrchState) (session : CSession) : OrchState :=
  { st with destroys := st.destroys ++ [session.ref] }

/-- The session event handler installed by `getOrCreateSession` via
`session.on`.  It closes over `sessionId` and mutates the service state
(session map on `session.error`, the shared `activeTools` table), returning
the list of UI events delivered to the registered handlers, in emission
order.  The completion's tool name is `activeTools.get(id) || "tool"` — a JS
truthiness fallback, so a missing entry AND an empty-string recorded name both
yield the placeholder `"tool"`. -/
def handleSessionEvent (st : OrchState) (sessionId : Nat) (ev : SEvent) :
    OrchState × List UIEvent :=
  match ev with
  | .sessionError =>
      ({ st with sessions := aDel st.sessions sessionId }, [])
  | .compactionStart =>
      (st, if st.hasToolHandler then
        [.tool { type := "start", toolName := "context_compaction", toolCallId := "compaction" }]
      else [])
  | .compactionComplete =>
      (st, if st.hasToolHandler then
        [.tool { type := "complete", toolName := "context_compaction", toolCallId := "compaction" }]
      else [])
  | .messageDelta messageId deltaContent parentToolCallId =>
      (st, if st.hasStreamHandler ∧ truthyStr deltaContent ∧ ¬ truthyStr parentToolCallId then
        [.stream messageId (deltaContent.getD "")]
      else [])
  | .usage model inputTokens outputTokens cost =>
      (st, if st.hasModelUsageHandler ∧ truthyStr model then
        [.modelUsage (model.getD "") inputTokens outputTokens cost]
      else [])
  | .sessionStart _ => (st, [])
  | .toolStart toolName toolCallId =>
      if st.hasToolHandler then
        ({ st with activeTools := aSet st.activeTools toolCallId toolName },
         [.tool { type := "start", toolName := toolName, toolCallId := toolCallId }])
      else (st, [])
  | .toolComplete toolCallId result =>
      let toolName :=
        match aGet st.activeTools toolCallId with
        | some n => if n = "" then "tool" else n
        | none => "tool"
      let st1 := { st with activeTools := aDel st.activeTools toolCallId }
      let toolEvs : List UIEvent :=
        if st.hasToolHandler then
          [.tool { type := "complete", toolName := toolName, toolCallId := toolCallId }]
        else []
      let extraEvs : List UIEvent :=
        match result with
        | some (.obj o) =>
            let widgetEvs : List UIEvent :=
              if st.hasWidgetHandler ∧ truthyStr o.widget then
                [.widget {
                  type := o.widget.getD "",
                  duration := o.duration,
                  label := o.label,
                  cities := o.cities,
                  category := o.category,
                  enabled := o.enabled,
                  connected := o.connected,
                  currentNetwork :=
                    some (match o.currentNetwork with
                          | some (some s) => some s
                          | _ => none),
                  savedNetworks := o.savedNetworks,
                  error := o.error }]
              else []
            let shotEvs : List UIEvent :=
              if st.hasScreenshotHandler ∧ toolName = "capture_screenshot" ∧
                  o.success = some true ∧ (truthyStr o.path ∨ truthyStr o.url) then
                [.screenshot o.path o.url]
              else []
            widgetEvs ++ shotEvs
        | _ => []
      (st1, toolEvs ++ extraEvs)
  | .other => (st, [])

/-- `getOrCreateSession(sessionId, model)`: reuse an existing record without
any model check; otherwise create a session at `model` (logged in
`creations`), subscribe its event handler, insert it and return it. -/
def getOrCreateSession (st : OrchState) (sessionId : Nat) (model : String) :
    OrchState × CSession :=
  let st0 := ensureClient st
  match aGet st0.sessions sessionId with
  | some existing => (st0, existing)
  | none =>
      let session : CSession := { ref := st0.nextRef, model := model }
      ({ st0 with
          sessions := aSet st0.sessions sessionId session,
          nextRef := st0.nextRef + 1,
          creations := st0.creations ++ [(session.ref, model)] }, session)

/-- The recreate-on-model-change block of `chat`: if the map is nonempty and
the watermark differs from the configured model, attempt destruction of every
session (`Promise.allSettled`, failures swallowed) and clear the map. -/
def recreateIfModelChanged (st : OrchState) (cfgModel : String) : OrchState :=
  if 0 < st.sessions.length ∧ st.currentModel ≠ cfgModel then
    { st with
        destroys := st.destroys ++ st.sessions.map (fun p => p.2.ref),
        sessions := [] }
  else st

/-- `this.currentModel = config.model`. -/
def setCurrentModel (st : OrchState) (cfgModel : String) : OrchState :=
  { st with currentModel := cfgModel }

/-- What one `chat` call produces: the final state, the returned text or
re-thrown error, and the screenshot attachment (if any) carried by the
outbound message. -/
structure ChatOut where
  state : OrchState
  result : ChatOutcome
  promptSent : String
  attachment : Option String
deriving DecidableEq, Repr

/-- `chat(prompt, sessionId)` with the configured model `cfgModel` read from
`loadConfig()`, the wall clock at `now`, and the backend's `sendAndWait`
outcome supplied as `send`.  Follows the source order: lazy client start,
recreate-on-model-change, watermark update, get-or-create, screenshot
attachment (cleared immediately after a truthy fresh read), send; on success
return `content || ""`; on rejection evict the key, attempt destruction of the
dead session and re-throw. -/
def chat (st : OrchState) (cfgModel prompt : String) (sessionId : Nat)
    (send : SendOutcome) (now : Nat) : ChatOut :=
  let st0 := ensureClient st
  let st1 := recreateIfModelChanged st0 cfgModel
  let st2 := setCurrentModel st1 cfgModel
  let created := getOrCreateSession st2 sessionId cfgModel
  let st3 := created.1
  let session := created.2
  let att := getLastScreenshot st3 now
  let st4 := if att.isSome then clearLastScreenshot st3 else st3
  match send with
  | .ok content =>
      { state := st4, result := .reply (content.getD ""), promptSent := prompt,
        attachment := att }
  | .err msg =>
      let st5 := { st4 with sessions := aDel st4.sessions sessionId }
      let st6 := destroyAndDelete st5 session
      { state := st6, result := .failed msg, promptSent := prompt, attachment := att }

/-- `compactSession(sessionId)`: `summarySend` is the backend outcome of the
summary request on the old session, `primeSend` that of the priming message on
the fresh session, `cfgModel` the model `loadConfig()` returns at the point the
source reads it.  The `catch` block of the source deletes the key's map entry
and returns a structured failure. -/
def compactSession (st : OrchState) (cfgModel : String) (sessionId : Nat)
    (summarySend primeSend : SendOutcome) : OrchState × CompactResult :=
  match aGet st.sessions sessionId with
  | none => (st, { success := false, error := some "No active session to compact" })
  | some session =>
      match summarySend with
      | .err msg =>
          ({ st with sessions := aDel st.sessions sessionId },
           { success := false, error := some msg })
      | .ok content =>
          let summary := content.getD ""
          if summary = "" then
            (st, { success := false, error := some "Failed to generate summary" })
          else
            let st1 := destroyAndDelete st session
            let st2 := { st1 with sessions := aDel st1.sessions sessionId }
            let st3 := setCurrentModel st2 cfgModel
            let created := getOrCreateSession st3 sessionId cfgModel
            let st4 := created.1
            match primeSend with
            | .err msg =>
                ({ st4 with sessions := aDel st4.sessions sessionId },
                 { success := false, error := some msg })
            | .ok _ =>
                (st4, { success := true, summary := some summary })

/-- `cleanup()`: best-effort destruction of every session when the client
exists and the map is nonempty, then stop and drop the client. -/
def cleanup (st : OrchState) : OrchState :=
  let st1 :=
    if st.clientStarted ∧ 0 < st.sessions.length then
      { st with
          destroys := st.destroys ++ st.sessions.map (fun p => p.2.ref),
          sessions := [] }
    else st
  if st1.clientStarted then { st1 with clientStarted := false } else st1

/-- One externally triggered operation on the orchestrator (the state-mutating
part; emitted events and return values are dropped). -/
inductive Op
  | opChat (cfgModel prompt : String) (sessionId : Nat) (send : SendOutcome) (now : Nat)
  | opCompact (cfgModel : String) (sessionId : Nat) (summarySend primeSend : SendOutcome)
  | opCleanup
  | opEvent (sessionId : Nat) (ev : SEvent)
  | opSetShot (path : String) (now : Nat)
  | opSetToolHandler (b : Bool)
  | opSetWidgetHandler (b : Bool)
  | opSetStreamHandler (b : Bool)
  | opSetScreenshotHandler (b : Bool)
  | opSetModelUsageHandler (b : Bool)
deriving DecidableEq, Repr

/-- The state transition of one operation. -/
def stepOp (st : OrchState) : Op → OrchState
  | .opChat cfgModel prompt sessionId send now =>
      (chat st cfgModel prompt sessionId send now).state
  | .opCompact cfgModel sessionId summarySend primeSend =>
      (compactSession st cfgModel sessionId summarySend primeSend).1
  | .opCleanup => cleanup st
  | .opEvent sessionId ev => (handleSessionEvent st sessionId ev).1
  | .opSetShot path now => setLastScreenshot st path now
  | .opSetToolHandler b => { st with hasToolHandler := b }
  | .opSetWidgetHandler b => { st with hasWidgetHandler := b }
  | .opSetStreamHandler b => { st with hasStreamHandler := b }
  | .opSetScreenshotHandler b => { st with hasScreenshotHandler := b }
  | .opSetModelUsageHandler b => { st with hasModelUsageHandler := b }

/-- Run a sequence of operations from a state. -/
def run (st : OrchState) (ops : List Op) : OrchState :=
  ops.foldl stepOp st

/-- The model-watermark consistency invariant: every session currently in the
map was created with the current watermark model. -/
def modelConsistent (st : OrchState) : Bool :=
  st.sessions.all (fun p => p.2.model == st.currentModel)

/-- The widget-event payloads among a list of emitted events. -/
def widgetEvents (evs : List UIEvent) : List WidgetEvent :=
  evs.filterMap (fun e => match e with | .widget w => some w | _ => none)

/-- The `type` fields of the widget events among a list of emitted events. -/
def widgetTypes (evs : List UIEvent) : List String :=
  (widgetEvents evs).map (fun w => w.type)

/-- The screenshot events (path, url) among a list of emitted events. -/
def screenshotEvents (evs : List UIEvent) : List (Option String × Option String) :=
  evs.filterMap (fun e => match e with | .screenshot p u => some (p, u) | _ => none)

/-- A sequence of sequential `chat` calls on one key at one configured model,
each entry supplying its prompt, the backend's successful content and the
wall-clock time of the call. -/
def chatSeq (st : OrchState) (cfgModel : String) (sessionId : Nat) :
    List (String × Option String × Nat) → OrchState
  | [] => st
  | (prompt, content, now) :: rest =>
      chatSeq (chat st cfgModel prompt sessionId (.ok content) now).state
        cfgModel sessionId rest

/-! ### Association-list lemmas -/

theorem aGet_aDel_self {α β : Type} [DecidableEq α] (m : List (α × β)) (k : α) :
    aGet (aDel m k) k = none := by
  induction m with
  | nil => rfl
  | cons p rest ih =>
      obtain ⟨k1, v1⟩ := p
      by_cases h : k1 = k <;> simp [aDel, aGet, h, ih]

theorem aGet_aDel_ne {α β : Type} [DecidableEq α] (m : List (α × β)) (k k1 : α)
    (h : k1 ≠ k) : aGet (aDel m k) k1 = aGet m k1 := by
  induction m with
  | nil => rfl
  | cons p rest ih =>
      obtain ⟨ka, va⟩ := p
      simp only [aDel]
      by_cases hk : ka = k
      · rw [if_pos hk, ih]
        simp [aGet, show ¬ ka = k1 from by rw [hk]; exact fun e => h e.symm]
      · rw [if_neg hk]
        by_cases hk1 : ka = k1
        · simp [aGet, hk1]
        · simp [aGet, hk1, ih]

theorem aGet_aSet_self {α β : Type} [DecidableEq α] (m : List (α × β)) (k : α) (v : β) :
    aGet (aSet m k v) k = some v := by
  simp [aSet, aGet]

theorem aGet_aSet_ne {α β : Type} [DecidableEq α] (m : List (α × β)) (k k1 : α) (v : β)
    (h : k1 ≠ k) : aGet (aSet m k v) k1 = aGet m k1 := by
  simp only [aSet, aGet]
  rw [if_neg (fun e => h e.symm), aGet_aDel_ne m k k1 h]

theorem aCount_aDel_self {α β : Type} [DecidableEq α] (m : List (α × β)) (k : α) :
    aCount (aDel m k) k = 0 := by
  induction m with
  | nil => rfl
  | cons p rest ih =>
      obtain ⟨ka, va⟩ := p
      by_cases h : ka = k <;> simp [aDel, aCount, h, ih]

theorem aCount_aSet_self {α β : Type} [DecidableEq α] (m : List (α × β)) (k : α) (v : β) :
    aCount (aSet m k v) k = 1 := by
  simp [aSet, aCount, aCount_aDel_self]

theorem all_aDel {α β : Type} [DecidableEq α] (m : List (α × β)) (k : α)
    (P : α × β → Bool) (h : m.all P = true) : (aDel m k).all P = true := by
  induction m with
  | nil => rfl
  | cons p rest ih =>
      simp only [List.all_cons, Bool.and_eq_true] at h
      obtain ⟨ka, va⟩ := p
      by_cases hk : ka = k <;> simp [aDel, hk, ih h.2, h.1]

theorem all_aSet {α β : Type} [DecidableEq α] (m : List (α × β)) (k : α) (v : β)
    (P : α × β → Bool) (hv : P (k, v) = true) (h : m.all P = true) :
    (aSet m k v).all P = true := by
  simp [aSet, hv, all_aDel m k P h]

theorem aDel_cons_self {α β : Type} [DecidableEq α] (k : α) (v : β)
    (L : List (α × β)) : aDel ((k, v) :: L) k = aDel L k := by
  simp [aDel]

theorem mem_aDel {α β : Type} [DecidableEq α] {m : List (α × β)} {k : α}
    {p : α × β} (h : p ∈ aDel m k) : p ∈ m := by
  induction m with
  | nil => simpa [aDel] using h
  | cons q rest ih =>
      obtain ⟨ka, va⟩ := q
      by_cases hk : ka = k
      · simp only [aDel, if_pos hk] at h
        exact List.mem_cons_of_mem _ (ih h)
      · rcases List.mem_cons.mp (by simpa [aDel, hk] using h) with h1 | h1
        · exact h1 ▸ List.mem_cons_self _ _
        · exact List.mem_cons_of_mem _ (ih h1)

/-! ### Characterization lemmas for the orchestrator operations -/

theorem recreate_same (st : OrchState) (cfg : String) (h : st.currentModel = cfg) :
    recreateIfModelChanged st cfg = st := by
  simp [recreateIfModelChanged, h]

theorem getOrCreateSession_hit (st : OrchState) (k : Nat) (m : String) (s : CSession)
    (h : aGet st.sessions k = some s) :
    getOrCreateSession st k m = (ensureClient st, s) := by
  simp [getOrCreateSession, ensureClient, h]

theorem getOrCreateSession_miss (st : OrchState) (k : Nat) (m : String)
    (h : aGet st.sessions k = none) :
    getOrCreateSession st k m =
      ({ ensureClient st with
          sessions := aSet st.sessions k { ref := st.nextRef, model := m },
          nextRef := st.nextRef + 1,
          creations := st.creations ++ [(st.nextRef, m)] },
       { ref := st.nextRef, model := m }) := by
  simp [getOrCreateSession, ensureClient, h]

/-- Anatomy of a `chat` call whose configured model equals the watermark and
whose key has a live session: the send succeeds, the record is reused, nothing
about the map, the logs or the watermark changes. -/
theorem chat_hit_ok (st : OrchState) (cfg p : String) (key : Nat) (c : Option String)
    (now : Nat) (s : CSession) (hm : st.currentModel = cfg)
    (hs : aGet st.sessions key = some s) :
    (chat st cfg p key (.ok c) now).state.sessions = st.sessions ∧
    (chat st cfg p key (.ok c) now).state.creations = st.creations ∧
    (chat st cfg p key (.ok c) now).state.destroys = st.destroys ∧
    (chat st cfg p key (.ok c) now).state.currentModel = cfg ∧
    (chat st cfg p key (.ok c) now).state.nextRef = st.nextRef ∧
    (chat st cfg p key (.ok c) now).result = .reply (c.getD "") := by
  simp [chat, recreate_same, hm, setCurrentModel, getOrCreateSession, ensureClient, hs,
    apply_ite OrchState.sessions, apply_ite OrchState.creations,
    apply_ite OrchState.destroys, apply_ite OrchState.currentModel,
    apply_ite OrchState.nextRef, clearLastScreenshot]

/-- Anatomy of a `chat` call whose configured model equals the watermark and
whose key has no live session, with a successful send: exactly one session is
created, at the configured model, and inserted for the key. -/
theorem chat_miss_ok (st : OrchState) (cfg p : String) (key : Nat) (c : Option String)
    (now : Nat) (hm : st.currentModel = cfg) (hs : aGet st.sessions key = none) :
    (chat st cfg p key (.ok c) now).state.sessions =
      aSet st.sessions key { ref := st.nextRef, model := cfg } ∧
    (chat st cfg p key (.ok c) now).state.creations =
      st.creations ++ [(st.nextRef, cfg)] ∧
    (chat st cfg p key (.ok c) now).state.destroys = st.destroys ∧
    (chat st cfg p key (.ok c) now).state.currentModel = cfg ∧
    (chat st cfg p key (.ok c) now).state.nextRef = st.nextRef + 1 ∧
    (chat st cfg p key (.ok c) now).result = .reply (c.getD "") := by
  simp [chat, recreate_same, hm, setCurrentModel, getOrCreateSession, ensureClient, hs,
    apply_ite OrchState.sessions, apply_ite OrchState.creations,
    apply_ite OrchState.destroys, apply_ite OrchState.currentModel,
    apply_ite OrchState.nextRef, clearLastScreenshot]

/-- Anatomy of a `chat` call whose configured model equals the watermark and
whose send rejects: the call fails with the original error, the key's record
is gone, exactly one destruction is attempted, and every other key's record is
untouched. -/
theorem chat_err (st : OrchState) (cfg p : String) (key : Nat) (msg : String)
    (now : Nat) (hm : st.currentModel = cfg) :
    (chat st cfg p key (.err msg) now).result = .failed msg ∧
    aGet (chat st cfg p key (.err msg) now).state.sessions key = none ∧
    (∀ k1 : Nat, k1 ≠ key →
      aGet (chat st cfg p key (.err msg) now).state.sessions k1 = aGet st.sessions k1) ∧
    (chat st cfg p key (.err msg) now).state.destroys.length = st.destroys.length + 1 := by
  cases hs : aGet st.sessions key with
  | some s =>
      simp [chat, recreate_same, hm, setCurrentModel, getOrCreateSession, ensureClient, hs,
        destroyAndDelete, apply_ite OrchState.sessions, apply_ite OrchState.destroys,
        clearLastScreenshot, aGet_aDel_self]
      exact fun k1 hk1 => aGet_aDel_ne _ _ _ hk1
  | none =>
      simp [chat, recreate_same, hm, setCurrentModel, getOrCreateSession, ensureClient, hs,
        destroyAndDelete, apply_ite OrchState.sessions, apply_ite OrchState.destroys,
        clearLastScreenshot, aGet_aDel_self]
      exact fun k1 hk1 => by rw [aGet_aDel_ne _ _ _ hk1, aGet_aSet_ne _ _ _ _ hk1]

theorem recreate_shotPath (st : OrchState) (cfg : String) :
    (recreateIfModelChanged st cfg).lastScreenshotPath = st.lastScreenshotPath := by
  unfold recreateIfModelChanged
  split <;> rfl

theorem recreate_shotTime (st : OrchState) (cfg : String) :
    (recreateIfModelChanged st cfg).lastScreenshotTime = st.lastScreenshotTime := by
  unfold recreateIfModelChanged
  split <;> rfl

theorem getOrCreateSession_shotPath (st : OrchState) (k : Nat) (m : String) :
    ((getOrCreateSession st k m).1).lastScreenshotPath = st.lastScreenshotPath := by
  cases hs : aGet st.sessions k with
  | some s => simp [getOrCreateSession_hit st k m s hs, ensureClient]
  | none => simp [getOrCreateSession_miss st k m hs, ensureClient]

theorem getOrCreateSession_shotTime (st : OrchState) (k : Nat) (m : String) :
    ((getOrCreateSession st k m).1).lastScreenshotTime = st.lastScreenshotTime := by
  cases hs : aGet st.sessions k with
  | some s => simp [getOrCreateSession_hit st k m s hs, ensureClient]
  | none => simp [getOrCreateSession_miss st k m hs, ensureClient]

theorem getLastScreenshot_congr (st1 st2 : OrchState)
    (h1 : st1.lastScreenshotPath = st2.lastScreenshotPath)
    (h2 : st1.lastScreenshotTime = st2.lastScreenshotTime) (now : Nat) :
    getLastScreenshot st1 now = getLastScreenshot st2 now := by
  simp [getLastScreenshot, h1, h2]

/-- Anatomy of the screenshot-attachment step of any `chat` call: the outbound
message carries exactly what `getLastScreenshot` returns at call time, a
returned (fresh) path is cleared from the slot, and a withheld one leaves the
slot untouched. -/
theorem chat_attachment (st : OrchState) (cfg p : String) (key : Nat)
    (send : SendOutcome) (now : Nat) :
    (chat st cfg p key send now).attachment = getLastScreenshot st now ∧
    ((getLastScreenshot st now).isSome = true →
      (chat st cfg p key send now).state.lastScreenshotPath = none) ∧
    (getLastScreenshot st now = none →
      (chat st cfg p key send now).state.lastScreenshotPath = st.lastScreenshotPath ∧
      (chat st cfg p key send now).state.lastScreenshotTime = st.lastScreenshotTime) := by
  have hP : ((getOrCreateSession (setCurrentModel (recreateIfModelChanged
      (ensureClient st) cfg) cfg) key cfg).1).lastScreenshotPath = st.lastScreenshotPath := by
    rw [getOrCreateSession_shotPath]
    simp [setCurrentModel, recreate_shotPath, ensureClient]
  have hT : ((getOrCreateSession (setCurrentModel (recreateIfModelChanged
      (ensureClient st) cfg) cfg) key cfg).1).lastScreenshotTime = st.lastScreenshotTime := by
    rw [getOrCreateSession_shotTime]
    simp [setCurrentModel, recreate_shotTime, ensureClient]
  have hAtt : getLastScreenshot ((getOrCreateSession (setCurrentModel
      (recreateIfModelChanged (ensureClient st) cfg) cfg) key cfg).1) now =
      getLastScreenshot st now := getLastScreenshot_congr _ _ hP hT now
  cases send with
  | ok c =>
      refine ⟨by simp [chat, hAtt], ?_, ?_⟩
      · intro h
        simp [chat, hAtt, h, apply_ite OrchState.lastScreenshotPath, clearLastScreenshot]
      · intro h
        simp [chat, hAtt, h, apply_ite OrchState.lastScreenshotPath,
          apply_ite OrchState.lastScreenshotTime, clearLastScreenshot, hP, hT]
  | err msg =>
      refine ⟨by simp [chat, hAtt], ?_, ?_⟩
      · intro h
        simp [chat, hAtt, h, apply_ite OrchState.lastScreenshotPath, clearLastScreenshot,
          destroyAndDelete]
      · intro h
        simp [chat, hAtt, h, apply_ite OrchState.lastScreenshotPath,
          apply_ite OrchState.lastScreenshotTime, clearLastScreenshot, hP, hT,
          destroyAndDelete]

theorem getOrCreateSession_currentModel (st : OrchState) (k : Nat) (m : String) :
    ((getOrCreateSession st k m).1).currentModel = st.currentModel := by
  cases hs : aGet st.sessions k with
  | some s => simp [getOrCreateSession_hit st k m s hs, ensureClient]
  | none => simp [getOrCreateSession_miss st k m hs, ensureClient]

theorem recreate_currentModel (st : OrchState) (cfg : String) :
    (recreateIfModelChanged st cfg).currentModel = st.currentModel := by
  unfold recreateIfModelChanged
  split <;> rfl

/-- After any `chat` call the watermark equals the configured model it read. -/
theorem chat_currentModel (st : OrchState) (cfg p : String) (key : Nat)
    (send : SendOutcome) (now : Nat) :
    (chat st cfg p key send now).state.currentModel = cfg := by
  have h : ((getOrCreateSession (setCurrentModel (recreateIfModelChanged
      (ensureClient st) cfg) cfg) key cfg).1).currentModel = cfg := by
    rw [getOrCreateSession_currentModel]
    rfl
  cases send with
  | ok c =>
      simp [chat, apply_ite OrchState.currentModel, clearLastScreenshot, h]
  | err m =>
      simp [chat, apply_ite OrchState.currentModel, clearLastScreenshot,
        destroyAndDelete, h]

/-- Anatomy of a failing `chat` on a key with a live session (unchanged
model): the key is evicted from the map, nothing is created. -/
theorem chat_hit_err (st : OrchState) (cfg p : String) (key : Nat) (msg : String)
    (now : Nat) (s : CSession) (hm : st.currentModel = cfg)
    (hs : aGet st.sessions key = some s) :
    (chat st cfg p key (.err msg) now).state.sessions = aDel st.sessions key ∧
    (chat st cfg p key (.err msg) now).state.creations = st.creations := by
  simp [chat, recreate_same, hm, setCurrentModel, getOrCreateSession, ensureClient, hs,
    destroyAndDelete, apply_ite OrchState.sessions, apply_ite OrchState.creations,
    clearLastScreenshot]

/-- Anatomy of a failing `chat` on a key with no live session (unchanged
model): a session is created (logged), then evicted again on the failure. -/
theorem chat_miss_err (st : OrchState) (cfg p : String) (key : Nat) (msg : String)
    (now : Nat) (hm : st.currentModel = cfg) (hs : aGet st.sessions key = none) :
    (chat st cfg p key (.err msg) now).state.sessions =
      aDel (aSet st.sessions key { ref := st.nextRef, model := cfg }) key ∧
    (chat st cfg p key (.err msg) now).state.creations =
      st.creations ++ [(st.nextRef, cfg)] ∧
    (chat st cfg p key (.err msg) now).state.nextRef = st.nextRef + 1 := by
  simp [chat, recreate_same, hm, setCurrentModel, getOrCreateSession, ensureClient, hs,
    destroyAndDelete, apply_ite OrchState.sessions, apply_ite OrchState.creations,
    apply_ite OrchState.nextRef, clearLastScreenshot]

/-- Anatomy of a `chat` call that triggers recreate-on-model-change: all
sessions are destroyed, the map is rebuilt with just the new session at the
configured model. -/
theorem chat_changed (st : OrchState) (cfg p : String) (key : Nat)
    (send : SendOutcome) (now : Nat) (h1 : 0 < st.sessions.length)
    (h2 : st.currentModel ≠ cfg) :
    (chat st cfg p key send now).state.sessions =
      (match send with
       | .ok _ => [(key, { ref := st.nextRef, model := cfg })]
       | .err _ => []) ∧
    (chat st cfg p key send now).state.creations =
      st.creations ++ [(st.nextRef, cfg)] := by
  cases send <;>
    simp [chat, recreateIfModelChanged, h1, h2, setCurrentModel, getOrCreateSession,
      ensureClient, aGet, aSet, aDel, destroyAndDelete,
      apply_ite OrchState.sessions, apply_ite OrchState.creations, clearLastScreenshot]

/-- Anatomy of a `chat` call on an empty session map: no recreation happens,
one session is created at the configured model. -/
theorem chat_empty (st : OrchState) (cfg p : String) (key : Nat)
    (send : SendOutcome) (now : Nat) (h : st.sessions = []) :
    (chat st cfg p key send now).state.sessions =
      (match send with
       | .ok _ => [(key, { ref := st.nextRef, model := cfg })]
       | .err _ => []) ∧
    (chat st cfg p key send now).state.creations =
      st.creations ++ [(st.nextRef, cfg)] := by
  cases send <;>
    simp [chat, recreateIfModelChanged, h, setCurrentModel, getOrCreateSession,
      ensureClient, aGet, aSet, aDel, destroyAndDelete,
      apply_ite OrchState.sessions, apply_ite OrchState.creations, clearLastScreenshot]

/-- After any `chat` call at configured model `cfg`, starting from a
model-consistent state, every session in the map was created at `cfg`. -/
theorem chat_all_cfg (st : OrchState) (cfg p : String) (key : Nat)
    (send : SendOutcome) (now : Nat) (hI : modelConsistent st = true) :
    ((chat st cfg p key send now).state.sessions.all
      (fun q => q.2.model == cfg)) = true := by
  by_cases hemp : st.sessions = []
  · rw [(chat_empty st cfg p key send now hemp).1]
    cases send <;> simp
  · by_cases hm : st.currentModel = cfg
    · have hall : st.sessions.all (fun q => q.2.model == cfg) = true := by
        rw [← hm]
        exact hI
      cases hs : aGet st.sessions key with
      | some s =>
          cases send with
          | ok c =>
              rw [(chat_hit_ok st cfg p key c now s hm hs).1]
              exact hall
          | err m =>
              rw [(chat_hit_err st cfg p key m now s hm hs).1]
              exact all_aDel _ _ _ hall
      | none =>
          cases send with
          | ok c =>
              rw [(chat_miss_ok st cfg p key c now hm hs).1]
              exact all_aSet _ _ _ _ (by simp) hall
          | err m =>
              rw [(chat_miss_err st cfg p key m now hm hs).1]
              exact all_aDel _ _ _ (all_aSet _ _ _ _ (by simp) hall)
    · have h1 : 0 < st.sessions.length := List.length_pos.mpr hemp
      rw [(chat_changed st cfg p key send now h1 hm).1]
      cases send <;> simp

/-- `chat` preserves the model-watermark invariant. -/
theorem chat_modelConsistent (st : OrchState) (cfg p : String) (key : Nat)
    (send : SendOutcome) (now : Nat) (hI : modelConsistent st = true) :
    modelConsistent (chat st cfg p key send now).state = true := by
  rw [modelConsistent, chat_currentModel]
  exact chat_all_cfg st cfg p key send now hI

/-- `compactSession` preserves the model-watermark invariant provided the
configured model it reads equals the current watermark. -/
theorem compact_modelConsistent (st : OrchState) (cfg : String) (key : Nat)
    (sOut pOut : SendOutcome) (hI : modelConsistent st = true)
    (hcfg : cfg = st.currentModel) :
    modelConsistent (compactSession st cfg key sOut pOut).1 = true := by
  subst hcfg
  cases hs : aGet st.sessions key with
  | none => simpa [compactSession, hs] using hI
  | some sess =>
      cases sOut with
      | err m =>
          simpa [compactSession, hs, modelConsistent] using all_aDel _ _ _ hI
      | ok content =>
          by_cases hemp : content.getD "" = ""
          · simpa [compactSession, hs, hemp] using hI
          · cases pOut with
            | ok c2 =>
                simp [compactSession, hs, hemp, getOrCreateSession, ensureClient,
                  aGet_aDel_self, setCurrentModel, destroyAndDelete, modelConsistent,
                  aSet]
                have hI2 : ∀ a b, (a, b) ∈ st.sessions → b.model = st.currentModel := by
                  simpa [modelConsistent] using hI
                intro a b hmem
                exact hI2 a b (mem_aDel (mem_aDel hmem))
            | err m2 =>
                simp [compactSession, hs, hemp, getOrCreateSession, ensureClient,
                  aGet_aDel_self, setCurrentModel, destroyAndDelete, modelConsistent,
                  aSet]
                have hI2 : ∀ a b, (a, b) ∈ st.sessions → b.model = st.currentModel := by
                  simpa [modelConsistent] using hI
                intro a b hmem
                rw [aDel_cons_self] at hmem
                exact hI2 a b (mem_aDel (mem_aDel (mem_aDel hmem)))

/-- `cleanup` preserves the model-watermark invariant. -/
theorem cleanup_modelConsistent (st : OrchState) (hI : modelConsistent st = true) :
    modelConsistent (cleanup st) = true := by
  by_cases h1 : st.clientStarted = true ∧ 0 < st.sessions.length
  · have h2 : st.clientStarted = true := h1.1
    simp [cleanup, modelConsistent, h1, h2]
  · by_cases h2 : st.clientStarted = true
    · have hlen : ¬ 0 < st.sessions.length := fun hl => h1 ⟨h2, hl⟩
      simpa [cleanup, modelConsistent, h2, hlen] using hI
    · simpa [cleanup, modelConsistent, h1, h2] using hI

/-- The session event handler preserves the model-watermark invariant. -/
theorem handle_modelConsistent (st : OrchState) (sid : Nat) (ev : SEvent)
    (hI : modelConsistent st = true) :
    modelConsistent (handleSessionEvent st sid ev).1 = true := by
  cases ev with
  | sessionError =>
      simpa [handleSessionEvent, modelConsistent] using all_aDel _ _ _ hI
  | toolStart n i =>
      by_cases h : st.hasToolHandler = true <;>
        simpa [handleSessionEvent, h, modelConsistent] using hI
  | toolComplete i r =>
      simpa [handleSessionEvent, modelConsistent] using hI
  | _ => simpa [handleSessionEvent, modelConsistent] using hI

/-! ### Claims -/

/-- C10: `chat` attaches a previously captured screenshot to the outbound
message only when it was recorded less than `SCREENSHOT_EXPIRY_MS` (5 minutes)
before the call; an expired screenshot is treated as absent and, because the
expired path is never cleared, it stays stored; a fresh attachment is cleared
immediately after being read, so it is consumed exactly once (a second `chat`
carries no attachment). -/
theorem screenshot_expiry (st : OrchState) (cfg p cfg2 p2 : String)
    (key key2 : Nat) (send send2 : SendOutcome) (now now2 : Nat) (path : String) :
    (st.lastScreenshotPath = some path → path ≠ "" →
      now - st.lastScreenshotTime < SCREENSHOT_EXPIRY_MS →
      (chat st cfg p key send now).attachment = some path ∧
      (chat st cfg p key send now).state.lastScreenshotPath = none ∧
      (chat (chat st cfg p key send now).state cfg2 p2 key2 send2 now2).attachment
        = none) ∧
    (st.lastScreenshotPath = some path →
      SCREENSHOT_EXPIRY_MS ≤ now - st.lastScreenshotTime →
      (chat st cfg p key send now).attachment = none ∧
      (chat st cfg p key send now).state.lastScreenshotPath = some path ∧
      (chat st cfg p key send now).state.lastScreenshotTime
        = st.lastScreenshotTime) ∧
    (st.lastScreenshotPath = none → (chat st cfg p key send now).attachment = none) := by
  obtain ⟨hA, hSome, hNone⟩ := chat_attachment st cfg p key send now
  refine ⟨?_, ?_, ?_⟩
  · intro h1 h2 h3
    have hg : getLastScreenshot st now = some path := by
      simp [getLastScreenshot, h1, h2, h3]
    have hcleared : (chat st cfg p key send now).state.lastScreenshotPath = none :=
      hSome (by rw [hg]; rfl)
    refine ⟨by rw [hA, hg], hcleared, ?_⟩
    obtain ⟨hA2, _, _⟩ :=
      chat_attachment (chat st cfg p key send now).state cfg2 p2 key2 send2 now2
    rw [hA2]
    simp [getLastScreenshot, hcleared]
  · intro h1 h4
    have hg : getLastScreenshot st now = none := by
      simp [getLastScreenshot, h1]
      exact fun _ => Nat.not_lt.mp (Nat.not_lt.mpr h4)
    refine ⟨by rw [hA, hg], ?_, (hNone hg).2⟩
    rw [(hNone hg).1, h1]
  · intro h1
    rw [hA]
    simp [getLastScreenshot, h1]

/-- Witness for C10: at time 2000 a screenshot recorded at time 1000 is
attached and cleared (and a second call attaches nothing); at time 400000 the
same screenshot is expired, withheld and left stored. -/
theorem screenshot_expiry_witness :
    (chat (setLastScreenshot initialState "/tmp/shot.png" 1000)
        "m" "hi" 1 (.ok (some "ok")) 2000).attachment = some "/tmp/shot.png" ∧
    (chat (setLastScreenshot initialState "/tmp/shot.png" 1000)
        "m" "hi" 1 (.ok (some "ok")) 2000).state.lastScreenshotPath = none ∧
    (chat (setLastScreenshot initialState "/tmp/shot.png" 1000)
        "m" "hi" 1 (.ok (some "ok")) 400000).attachment = none ∧
    (chat (setLastScreenshot initialState "/tmp/shot.png" 1000)
        "m" "hi" 1 (.ok (some "ok")) 400000).state.lastScreenshotPath
      = some "/tmp/shot.png" := by
  have h1 := screenshot_expiry (setLastScreenshot initialState "/tmp/shot.png" 1000)
    "m" "hi" "m" "hi" 1 1 (.ok (some "ok")) (.ok (some "ok")) 2000 2000 "/tmp/shot.png"
  have h2 := screenshot_expiry (setLastScreenshot initialState "/tmp/shot.png" 1000)
    "m" "hi" "m" "hi" 1 1 (.ok (some "ok")) (.ok (some "ok")) 400000 400000 "/tmp/shot.png"
  obtain ⟨ha, hb, -⟩ := h1.1 (by decide) (by decide) (by decide)
  obtain ⟨hc, hd, -⟩ := h2.2.1 (by decide) (by decide)
  exact ⟨ha, hb, hc, hd⟩

/-- C1 counterexample: model-watermark consistency is NOT preserved by
`compactSession`.  From a reachable state holding sessions for keys 1 and 2
created under model `"m1"`, a successful `compactSession(1)` while the
configured model is `"m2"` leaves key 1 at `"m2"` and key 2 at `"m1"` in the
map simultaneously, with the watermark at `"m2"`. -/
theorem modelWatermark_compact_counterexample :
    (let st := run initialState
        [.opChat "m1" "hi" 1 (.ok (some "a")) 0,
         .opChat "m1" "hi" 2 (.ok (some "a")) 0]
     modelConsistent st = true ∧
     (compactSession st "m2" 1 (.ok (some "sum")) (.ok (some "k"))).2.success
       = true ∧
     modelConsistent (compactSession st "m2" 1 (.ok (some "sum")) (.ok (some "k"))).1
       = false) := by decide

/-- C1 (amended): the model-watermark invariant (every mapped session was
created under the current watermark) is preserved by `chat`, `cleanup` and the
event handler unconditionally, and by `compactSession` whenever the configured
model it reads equals the current watermark; moreover any single `chat` call
from a consistent state leaves the map containing only sessions created with
the model configured at that call. -/
theorem modelWatermark (st : OrchState) (op : Op) (cfg prompt : String)
    (key : Nat) (send : SendOutcome) (now : Nat)
    (hI : modelConsistent st = true)
    (hc : ∀ cfgC keyC sC pC, op = Op.opCompact cfgC keyC sC pC →
      cfgC = st.currentModel) :
    modelConsistent (stepOp st op) = true ∧
    ((chat st cfg prompt key send now).state.sessions.all
      (fun q => q.2.model == cfg)) = true := by
  refine ⟨?_, chat_all_cfg st cfg prompt key send now hI⟩
  cases op with
  | opChat cfg1 p1 k1 s1 n1 => exact chat_modelConsistent st cfg1 p1 k1 s1 n1 hI
  | opCompact cfg1 k1 s1 p1 =>
      exact compact_modelConsistent st cfg1 k1 s1 p1 hI (hc cfg1 k1 s1 p1 rfl)
  | opCleanup => exact cleanup_modelConsistent st hI
  | opEvent sid ev => exact handle_modelConsistent st sid ev hI
  | opSetShot pth n => simpa [stepOp, setLastScreenshot, modelConsistent] using hI
  | opSetToolHandler b => simpa [stepOp, modelConsistent] using hI
  | opSetWidgetHandler b => simpa [stepOp, modelConsistent] using hI
  | opSetStreamHandler b => simpa [stepOp, modelConsistent] using hI
  | opSetScreenshotHandler b => simpa [stepOp, modelConsistent] using hI
  | opSetModelUsageHandler b => simpa [stepOp, modelConsistent] using hI

/-- Witness for C1 (amended): compaction at an unchanged model preserves
consistency, and one `chat` at changed model `"m2"` leaves only `"m2"`
sessions. -/
theorem modelWatermark_witness :
    modelConsistent (stepOp (run initialState [.opChat "m1" "hi" 1 (.ok (some "a")) 0])
      (.opCompact "m1" 1 (.ok (some "s")) (.ok (some "k")))) = true ∧
    ((chat (run initialState [.opChat "m1" "hi" 1 (.ok (some "a")) 0]) "m2" "x" 1
      (.ok (some "r")) 0).state.sessions.all (fun q => q.2.model == "m2")) = true := by
  have h := modelWatermark (run initialState [.opChat "m1" "hi" 1 (.ok (some "a")) 0])
    (.opCompact "m1" 1 (.ok (some "s")) (.ok (some "k"))) "m2" "x" 1 (.ok (some "r")) 0
    (by decide)
    (fun c k s p hop => by injection hop with h1 h2 h3 h4; rw [← h1]; decide)
  exact ⟨h.1, h.2⟩

/-- C2: a `chat` whose `sendAndWait` rejects removes the key's record, logs a
destruction attempt (destruction errors are swallowed by construction of
`destroyAndDelete`), re-throws the original error, and touches no other key;
a subsequent `chat` with the same key succeeds by creating a new session, for
two creations total across the failed-then-retried pair on a previously
absent key. -/
theorem chat_failure_eviction (st : OrchState) (cfg p1 p2 msg : String) (key : Nat)
    (c2 : Option String) (now1 now2 : Nat)
    (hm : st.currentModel = cfg) (hk : aGet st.sessions key = none) :
    (chat st cfg p1 key (.err msg) now1).result = .failed msg ∧
    aGet (chat st cfg p1 key (.err msg) now1).state.sessions key = none ∧
    (chat st cfg p1 key (.err msg) now1).state.destroys.length
      = st.destroys.length + 1 ∧
    (∀ k1 : Nat, k1 ≠ key →
      aGet (chat st cfg p1 key (.err msg) now1).state.sessions k1
        = aGet st.sessions k1) ∧
    (chat (chat st cfg p1 key (.err msg) now1).state cfg p2 key (.ok c2) now2).result
      = .reply (c2.getD "") ∧
    aGet (chat (chat st cfg p1 key (.err msg) now1).state cfg p2 key (.ok c2)
        now2).state.sessions key = some { ref := st.nextRef + 1, model := cfg } ∧
    (chat (chat st cfg p1 key (.err msg) now1).state cfg p2 key (.ok c2)
        now2).state.creations.length = st.creations.length + 2 := by
  obtain ⟨e1, e2, e3, e4⟩ := chat_err st cfg p1 key msg now1 hm
  have hm1 : (chat st cfg p1 key (.err msg) now1).state.currentModel = cfg :=
    chat_currentModel st cfg p1 key (.err msg) now1
  obtain ⟨m1, m2, m3⟩ := chat_miss_err st cfg p1 key msg now1 hm hk
  obtain ⟨k1, k2, k3, k4, k5, k6⟩ :=
    chat_miss_ok (chat st cfg p1 key (.err msg) now1).state cfg p2 key c2 now2 hm1 e2
  refine ⟨e1, e2, e4, e3, k6, ?_, ?_⟩
  · rw [k1, aGet_aSet_self, m3]
  · rw [k2, m2]
    simp

/-- Witness for C2: from a state holding only key 9, `chat("a", 1)` failing
with `"dead"` rejects, leaves no entry for key 1, and a retry `chat("b", 1)`
replies `"back"` with creations totalling 3 (one for key 9, two for the
pair on key 1). -/
theorem chat_failure_eviction_witness :
    (chat (run initialState [.opChat "m" "w" 9 (.ok (some "x")) 0]) "m" "a" 1
      (.err "dead") 0).result = .failed "dead" ∧
    aGet (chat (run initialState [.opChat "m" "w" 9 (.ok (some "x")) 0]) "m" "a" 1
      (.err "dead") 0).state.sessions 1 = none ∧
    (chat (chat (run initialState [.opChat "m" "w" 9 (.ok (some "x")) 0]) "m" "a" 1
      (.err "dead") 0).state "m" "b" 1 (.ok (some "back")) 0).result
      = .reply "back" ∧
    (chat (chat (run initialState [.opChat "m" "w" 9 (.ok (some "x")) 0]) "m" "a" 1
      (.err "dead") 0).state "m" "b" 1 (.ok (some "back")) 0).state.creations.length
      = 3 := by
  have h := chat_failure_eviction (run initialState [.opChat "m" "w" 9 (.ok (some "x")) 0])
    "m" "a" "b" "dead" 1 (some "back") 0 0 (by decide) (by decide)
  exact ⟨h.1, h.2.1, h.2.2.2.2.1, by rw [h.2.2.2.2.2.2]; decide⟩

/-- C3 counterexample: when the summary `sendAndWait` rejects, the `catch`
block of `compactSession` DELETES the key's map entry, so the entry is not
left unchanged as claimed (the old session is indeed not destroyed). -/
theorem compactFailure_counterexample :
    (let st := run initialState [.opChat "m" "hi" 1 (.ok (some "a")) 0]
     aGet st.sessions 1 = some { ref := 0, model := "m" } ∧
     (compactSession st "m" 1 (.err "boom") (.ok none)).2 =
       { success := false, summary := none, error := some "boom" } ∧
     aGet (compactSession st "m" 1 (.err "boom") (.ok none)).1.sessions 1
       = none) := by decide

/-- C3 (amended): when summary generation fails, `compactSession` returns a
structured `{success := false, error}` rather than throwing and never destroys
the old session; when the failure is an empty summary the state (and thus the
map entry) is left entirely unchanged, but when the summary `sendAndWait`
rejects the key's entry is removed from the map (evicted without
destruction). -/
theorem compactFailure (st : OrchState) (cfg : String) (key : Nat) (s : CSession)
    (m : String) (c : Option String) (prime : SendOutcome)
    (hs : aGet st.sessions key = some s) :
    compactSession st cfg key (.err m) prime =
      ({ st with sessions := aDel st.sessions key },
       { success := false, summary := none, error := some m }) ∧
    (c.getD "" = "" →
      compactSession st cfg key (.ok c) prime =
        (st, { success := false, summary := none,
               error := some "Failed to generate summary" })) := by
  constructor
  · simp [compactSession, hs]
  · intro hc
    simp [compactSession, hs, hc]

/-- Witness for C3 (amended) at a reachable one-session state: a rejecting
summary evicts key 1 returning the error, and an empty summary leaves the
state unchanged returning the canned failure. -/
theorem compactFailure_witness :
    compactSession (run initialState [.opChat "m" "hi" 1 (.ok (some "a")) 0]) "m" 1
      (.err "boom") (.ok none) =
      ({ run initialState [.opChat "m" "hi" 1 (.ok (some "a")) 0] with
          sessions := aDel (run initialState
            [.opChat "m" "hi" 1 (.ok (some "a")) 0]).sessions 1 },
       { success := false, summary := none, error := some "boom" }) ∧
    compactSession (run initialState [.opChat "m" "hi" 1 (.ok (some "a")) 0]) "m" 1
      (.ok (some "")) (.ok none) =
      (run initialState [.opChat "m" "hi" 1 (.ok (some "a")) 0],
       { success := false, summary := none,
         error := some "Failed to generate summary" }) := by
  have h := compactFailure (run initialState [.opChat "m" "hi" 1 (.ok (some "a")) 0])
    "m" 1 { ref := 0, model := "m" } "boom" (some "") (.ok none) (by decide)
  exact ⟨h.1, h.2 (by decide)⟩

/-- Through a sequence of successful same-model `chat` calls on a key that
already has a session, the session map and the creation log never change
(the record is reused as-is, with no model check). -/
theorem chatSeq_reuse (cfg : String) (key : Nat) (s : CSession)
    (ps : List (String × Option String × Nat)) :
    ∀ st : OrchState, st.currentModel = cfg → aGet st.sessions key = some s →
      (chatSeq st cfg key ps).sessions = st.sessions ∧
      (chatSeq st cfg key ps).creations = st.creations := by
  induction ps with
  | nil => exact fun st _ _ => ⟨rfl, rfl⟩
  | cons hd tl ih =>
      obtain ⟨p, c, now⟩ := hd
      intro st hm hs
      obtain ⟨h1, h2, h3, h4, h5, h6⟩ := chat_hit_ok st cfg p key c now s hm hs
      obtain ⟨i1, i2⟩ := ih (chat st cfg p key (.ok c) now).state h4 (by rw [h1]; exact hs)
      constructor
      · show (chatSeq (chat st cfg p key (.ok c) now).state cfg key tl).sessions
          = st.sessions
        rw [i1, h1]
      · show (chatSeq (chat st cfg p key (.ok c) now).state cfg key tl).creations
          = st.creations
        rw [i2, h2]

/-- C4: any nonempty sequence of sequential `chat` calls on one key, with the
configured model unchanged and every send succeeding, leaves exactly one map
entry for that key — the session created by the first call, reused unchanged —
and performs exactly one session creation across the whole sequence. -/
theorem chat_reuse_single_creation (st : OrchState) (cfg : String) (key : Nat)
    (first : String × Option String × Nat)
    (rest : List (String × Option String × Nat))
    (hm : st.currentModel = cfg) (hk : aGet st.sessions key = none) :
    aCount (chatSeq st cfg key (first :: rest)).sessions key = 1 ∧
    aGet (chatSeq st cfg key (first :: rest)).sessions key =
      some { ref := st.nextRef, model := cfg } ∧
    (chatSeq st cfg key (first :: rest)).creations.length
      = st.creations.length + 1 := by
  obtain ⟨p, c, now⟩ := first
  obtain ⟨h1, h2, h3, h4, h5, h6⟩ := chat_miss_ok st cfg p key c now hm hk
  have hs1 : aGet (chat st cfg p key (.ok c) now).state.sessions key =
      some { ref := st.nextRef, model := cfg } := by
    rw [h1, aGet_aSet_self]
  obtain ⟨i1, i2⟩ := chatSeq_reuse cfg key { ref := st.nextRef, model := cfg } rest
    (chat st cfg p key (.ok c) now).state h4 hs1
  refine ⟨?_, ?_, ?_⟩
  · show aCount (chatSeq (chat st cfg p key (.ok c) now).state cfg key rest).sessions
      key = 1
    rw [i1, h1, aCount_aSet_self]
  · show aGet (chatSeq (chat st cfg p key (.ok c) now).state cfg key rest).sessions
      key = some { ref := st.nextRef, model := cfg }
    rw [i1]
    exact hs1
  · show (chatSeq (chat st cfg p key (.ok c) now).state cfg key rest).creations.length
      = st.creations.length + 1
    rw [i2, h2]
    simp

/-- Witness for C4: two successful `chat` calls on key 1 (after an unrelated
session on key 5) leave one entry for key 1 and two creations total. -/
theorem chat_reuse_single_creation_witness :
    aCount (chatSeq (run initialState [.opChat "m" "w" 5 (.ok (some "x")) 0]) "m" 1
      [("a", some "r1", 0), ("b", some "r2", 1)]).sessions 1 = 1 ∧
    (chatSeq (run initialState [.opChat "m" "w" 5 (.ok (some "x")) 0]) "m" 1
      [("a", some "r1", 0), ("b", some "r2", 1)]).creations.length = 2 := by
  have h := chat_reuse_single_creation
    (run initialState [.opChat "m" "w" 5 (.ok (some "x")) 0]) "m" 1
    ("a", some "r1", 0) [("b", some "r2", 1)] (by decide) (by decide)
  exact ⟨h.1, by rw [h.2.2]; decide⟩

/-- C5: with the tool-event handler registered, a tool start event with a
(truthy, i.e. non-empty) name `X` and call id `c1` followed by a completion
carrying only `c1` yields a complete tool-event whose `toolName` is `X`; a
completion whose call id has no recorded start yields a complete tool-event
with the placeholder name `"tool"` (the fallback `get(id) || "tool"` also
fires on a falsy recorded name). -/
theorem toolEvent_correlation (st : OrchState) (sid : Nat) (X c1 : String)
    (r : Option ParsedContent) (h : st.hasToolHandler = true) (hX : X ≠ "") :
    ((handleSessionEvent (handleSessionEvent st sid (.toolStart X c1)).1 sid
        (.toolComplete c1 r)).2).head? =
      some (.tool { type := "complete", toolName := X, toolCallId := c1 }) ∧
    (aGet st.activeTools c1 = none →
      ((handleSessionEvent st sid (.toolComplete c1 r)).2).head? =
        some (.tool { type := "complete", toolName := "tool", toolCallId := c1 })) := by
  constructor
  · simp [handleSessionEvent, h, hX, aGet_aSet_self]
  · intro hnone
    simp [handleSessionEvent, h, hnone]

/-- Witness for C5 at the fresh service with the tool-event handler
registered. -/
theorem toolEvent_correlation_witness :
    ((handleSessionEvent (handleSessionEvent (run initialState [.opSetToolHandler true])
        7 (.toolStart "set_volume" "call_1")).1 7 (.toolComplete "call_1" none)).2).head? =
      some (.tool { type := "complete", toolName := "set_volume", toolCallId := "call_1" }) ∧
    ((handleSessionEvent (run initialState [.opSetToolHandler true])
        7 (.toolComplete "ghost" none)).2).head? =
      some (.tool { type := "complete", toolName := "tool", toolCallId := "ghost" }) :=
  ⟨(toolEvent_correlation (run initialState [.opSetToolHandler true])
      7 "set_volume" "call_1" none (by decide) (by decide)).1,
   (toolEvent_correlation (run initialState [.opSetToolHandler true])
      7 "ghost-name" "ghost" none (by decide) (by decide)).2 (by decide)⟩

/-- C6 counterexample: the active-tool table is NOT scoped per session.  In a
reachable state with two live sessions, session 1's event callback records
`c1 ↦ X`; a completion event arriving on session 2 reads that entry (its
complete tool-event carries `X`, not the placeholder) and removes it. -/
theorem activeTools_cross_session_counterexample :
    (let st := run initialState
        [.opSetToolHandler true,
         .opChat "m1" "hi" 1 (.ok (some "a")) 0,
         .opChat "m1" "hi" 2 (.ok (some "a")) 0]
     let st1 := (handleSessionEvent st 1 (.toolStart "X" "c1")).1
     let out := handleSessionEvent st1 2 (.toolComplete "c1" none)
     aGet st1.activeTools "c1" = some "X" ∧
     out.2 = [.tool { type := "complete", toolName := "X", toolCallId := "c1" }] ∧
     aGet out.1.activeTools "c1" = none) := by decide

/-- C6 (amended): the active tool-call table is a single service-level map
shared by all sessions, not per-session state: processing a tool start or
completion event is identical whichever session's callback runs it, and a
completion arriving on any session reads and removes the entry recorded by any
other session's start event for the same call id (emitting that entry's name
when it is truthy, i.e. non-empty). -/
theorem activeTools_service_scoped (st : OrchState) (sidA sidB : Nat)
    (name id : String) (r : Option ParsedContent) :
    handleSessionEvent st sidA (.toolStart name id) =
      handleSessionEvent st sidB (.toolStart name id) ∧
    handleSessionEvent st sidA (.toolComplete id r) =
      handleSessionEvent st sidB (.toolComplete id r) ∧
    (st.hasToolHandler = true → name ≠ "" →
      ((handleSessionEvent (handleSessionEvent st sidA (.toolStart name id)).1 sidB
          (.toolComplete id r)).2).head? =
        some (.tool { type := "complete", toolName := name, toolCallId := id }) ∧
      aGet ((handleSessionEvent (handleSessionEvent st sidA (.toolStart name id)).1 sidB
          (.toolComplete id r)).1).activeTools id = none) := by
  refine ⟨rfl, rfl, fun h hname => ?_⟩
  constructor
  · simp [handleSessionEvent, h, hname, aGet_aSet_self]
  · simp [handleSessionEvent, h, aGet_aDel_self]

/-- Witness for C6 (amended) on a fresh service with the tool handler
registered, with the start on session 3 and the completion on session 4. -/
theorem activeTools_service_scoped_witness :
    ((handleSessionEvent (handleSessionEvent (run initialState [.opSetToolHandler true])
        3 (.toolStart "X" "c1")).1 4 (.toolComplete "c1" none)).2).head? =
      some (.tool { type := "complete", toolName := "X", toolCallId := "c1" }) :=
  ((activeTools_service_scoped (run initialState [.opSetToolHandler true])
      3 4 "X" "c1" none).2.2 (by decide) (by decide)).1

/-- C7 counterexample: a completion whose payload parses as JSON containing a
widget field with the empty-string value (`{"widget": ""}`) emits ZERO
widget-events, not exactly one: the source gates emission on JS truthiness of
`result.widget`, and `""` is falsy. -/
theorem widget_empty_counterexample :
    (let st := run initialState [.opSetToolHandler true, .opSetWidgetHandler true]
     let out := handleSessionEvent st 1
        (.toolComplete "c9" (some (.obj { widget := some "" })))
     ({ widget := some "" } : ResultObj).widget.isSome = true ∧
     (widgetEvents out.2).length = 0) := by decide

/-- C7 (amended): with the widget handler registered, a completion whose
payload parses as JSON containing a truthy (non-empty) widget field emits
exactly one widget-event whose type equals that value; a payload that is
non-JSON, lacks a widget field, or carries a falsy one emits zero
widget-events, and the parse failure is swallowed. -/
theorem widget_extraction (st : OrchState) (sid : Nat) (id : String) (o : ResultObj)
    (h : st.hasWidgetHandler = true) :
    widgetTypes ((handleSessionEvent st sid (.toolComplete id (some (.obj o)))).2) =
      (if truthyStr o.widget then [o.widget.getD ""] else []) ∧
    widgetTypes ((handleSessionEvent st sid (.toolComplete id (some .malformed))).2)
      = [] ∧
    widgetTypes ((handleSessionEvent st sid (.toolComplete id none)).2) = [] := by
  refine ⟨?_, ?_, ?_⟩ <;>
    cases htool : st.hasToolHandler <;>
      simp [handleSessionEvent, h, htool, widgetTypes, widgetEvents]
  all_goals try (split <;> simp)
  all_goals (rintro a - - - - rfl; rfl)

/-- Witness for C7 (amended): `{widget: "timer"}` yields exactly one
widget-event with type `"timer"`; malformed and missing payloads yield
none. -/
theorem widget_extraction_witness :
    widgetTypes ((handleSessionEvent (run initialState [.opSetWidgetHandler true]) 1
        (.toolComplete "c1" (some (.obj { widget := some "timer" })))).2) = ["timer"] ∧
    widgetTypes ((handleSessionEvent (run initialState [.opSetWidgetHandler true]) 1
        (.toolComplete "c1" (some .malformed))).2) = [] := by
  have h := widget_extraction (run initialState [.opSetWidgetHandler true]) 1 "c1"
    { widget := some "timer" } (by decide)
  exact ⟨by rw [h.1]; decide, h.2.1⟩

/-- C8 counterexample: in a widget-event built from a result with no
`currentNetwork` field, `currentNetwork` is NOT omitted: the source applies
`?? null`, so the emitted event carries an explicit null (`some none`). -/
theorem widget_currentNetwork_counterexample :
    (let st := run initialState [.opSetWidgetHandler true]
     let out := handleSessionEvent st 1
        (.toolComplete "c1" (some (.obj { widget := some "timer" })))
     ({ widget := some "timer" } : ResultObj).currentNetwork = none ∧
     widgetEvents out.2 = [{ type := "timer", currentNetwork := some none }] ∧
     ∀ e ∈ widgetEvents out.2, e.currentNetwork ≠ none) := by decide

/-- C8 (amended): in every emitted widget-event, the fields duration, label,
cities, category, enabled, connected, savedNetworks and error are passed
through unchanged — absent in the result means absent in the event, never
defaulted — while `currentNetwork` is always present, defaulted to an explicit
null when the result's field is absent or null. -/
theorem widget_fields (st : OrchState) (sid : Nat) (id : String) (o : ResultObj)
    (h : st.hasWidgetHandler = true) (hw : truthyStr o.widget = true) :
    widgetEvents ((handleSessionEvent st sid (.toolComplete id (some (.obj o)))).2) =
      [{ type := o.widget.getD "",
         duration := o.duration, label := o.label, cities := o.cities,
         category := o.category, enabled := o.enabled, connected := o.connected,
         currentNetwork := some (match o.currentNetwork with
                                 | some (some s) => some s
                                 | _ => none),
         savedNetworks := o.savedNetworks, error := o.error }] ∧
    ∀ e ∈ widgetEvents ((handleSessionEvent st sid
        (.toolComplete id (some (.obj o)))).2), e.currentNetwork ≠ none := by
  have he : widgetEvents ((handleSessionEvent st sid
      (.toolComplete id (some (.obj o)))).2) =
      [{ type := o.widget.getD "",
         duration := o.duration, label := o.label, cities := o.cities,
         category := o.category, enabled := o.enabled, connected := o.connected,
         currentNetwork := some (match o.currentNetwork with
                                 | some (some s) => some s
                                 | _ => none),
         savedNetworks := o.savedNetworks, error := o.error }] := by
    cases htool : st.hasToolHandler <;>
      simp [handleSessionEvent, h, hw, htool, widgetEvents]
    all_goals (rintro a - - - - rfl; rfl)
  refine ⟨he, ?_⟩
  rw [he]
  simp

/-- Witness for C8 (amended) at a result carrying only `widget` and `label`:
the event passes `label` through, omits the other absent optional fields, and
carries an explicit null `currentNetwork`. -/
theorem widget_fields_witness :
    widgetEvents ((handleSessionEvent (run initialState [.opSetWidgetHandler true]) 1
        (.toolComplete "c1"
          (some (.obj { widget := some "countdown", label := some "tea" })))).2) =
      [{ type := "countdown", label := some "tea", currentNetwork := some none }] := by
  have h := widget_fields (run initialState [.opSetWidgetHandler true]) 1 "c1"
    { widget := some "countdown", label := some "tea" } (by decide) (by decide)
  rw [h.1]
  rfl

/-- C9 counterexample: with the screenshot handler registered but the
tool-event handler NOT registered, a `capture_screenshot` start followed by
its successful completion with a path emits NO screenshot-event — the start
branch records the tool name only when the tool-event handler is present, so
the completion falls back to the placeholder name and the screenshot check
fails.  This refutes "regardless of which other handlers are registered". -/
theorem screenshot_event_counterexample :
    (let st := run initialState [.opSetScreenshotHandler true]
     let st1 := (handleSessionEvent st 1 (.toolStart "capture_screenshot" "c1")).1
     let out := handleSessionEvent st1 1 (.toolComplete "c1"
        (some (.obj { success := some true, path := some "/tmp/s.png" })))
     st.hasScreenshotHandler = true ∧ screenshotEvents out.2 = []) := by decide

/-- C9 (amended): when the screenshot handler is registered AND the tool-event
handler was registered at the time of the start event (so the tool name was
recorded), a `capture_screenshot` start followed by its matching completion
whose result indicates success and carries a path or URL emits exactly one
screenshot-event with that path/URL. -/
theorem screenshot_event_emission (st : OrchState) (sid : Nat) (id : String)
    (o : ResultObj) (h1 : st.hasToolHandler = true)
    (h2 : st.hasScreenshotHandler = true) (h3 : o.success = some true)
    (h4 : truthyStr o.path = true ∨ truthyStr o.url = true) :
    screenshotEvents ((handleSessionEvent
        (handleSessionEvent st sid (.toolStart "capture_screenshot" id)).1 sid
        (.toolComplete id (some (.obj o)))).2) = [(o.path, o.url)] := by
  rcases h4 with h4 | h4 <;>
    cases hwid : st.hasWidgetHandler <;>
      simp [handleSessionEvent, h1, h2, h3, h4, hwid, aGet_aSet_self, screenshotEvents]

/-- Witness for C9 (amended): both handlers registered, successful capture
with a path produces the screenshot-event. -/
theorem screenshot_event_emission_witness :
    screenshotEvents ((handleSessionEvent
        (handleSessionEvent
          (run initialState [.opSetScreenshotHandler true, .opSetToolHandler true]) 1
          (.toolStart "capture_screenshot" "c1")).1 1
        (.toolComplete "c1"
          (some (.obj { success := some true, path := some "/tmp/s.png" })))).2) =
      [(some "/tmp/s.png", none)] :=
  screenshot_event_emission
    (run initialState [.opSetScreenshotHandler true, .opSetToolHandler true]) 1 "c1"
    { success := some true, path := some "/tmp/s.png" }
    (by decide) (by decide) (by decide) (Or.inl (by decide))

end CopilotBar
